import Mathlib

/-!
Verification of the perturb SGP4 wrapper library against its specification.

The development shallowly embeds the parts of the C/C++ sources that the
checked properties concern:

* the split-precision Julian-date type and its arithmetic (src/perturb.cpp),
  with the C++ `double` components modelled as exact rationals;
* the gravity-model selection switch (src/perturb.cpp);
* the two propagation entry points of the `Satellite` wrapper
  (src/perturb.cpp), with the numerical SGP4 core abstracted as a parameter;
* the epoch-year pivot of the `Satellite` TLE constructor;
* the `TwoLineElement::parse` routine (src/common_private.h) together with a
  character-level model of the `sscanf` scanning it performs.  Scanned
  floating-point fields are modelled as exact decimal numbers.
-/

set_option maxRecDepth 100000

namespace Perturb

/-- Split-precision Julian date (struct `JulianDate` of
include/perturb/perturb.hpp): the represented instant is `jd + jd_frac`.
The two C++ `double` components are modelled as exact rationals. -/
structure JulianDate where
  jd : ℚ
  jd_frac : ℚ
deriving DecidableEq

/-- `JulianDate::normalize` from src/perturb.cpp (identical to
`perturb_julian_normalized` in the C sources): if the coarse component
carries a fractional-day part larger than 1e-12 in magnitude, move it into
the fine component; then move any whole days of the fine component back
into the coarse component. -/
def JulianDate.normalize (t : JulianDate) : JulianDate :=
  let frac_days : ℚ := t.jd - ⌊t.jd⌋ - 1 / 2
  let t1 : JulianDate :=
    if |frac_days| > 1 / 1000000000000 then
      { jd := t.jd - frac_days, jd_frac := t.jd_frac + frac_days }
    else t
  if |t1.jd_frac| ≥ 1 then
    { jd := t1.jd + ⌊t1.jd_frac⌋, jd_frac := t1.jd_frac - ⌊t1.jd_frac⌋ }
  else t1

/-- `JulianDate::operator-` for two dates, from src/perturb.cpp: the coarse
and fine components are differenced separately and the two differences are
then summed. -/
def JulianDate.sub (a rhs : JulianDate) : ℚ :=
  (a.jd - rhs.jd) + (a.jd_frac - rhs.jd_frac)

/-- `JulianDate::operator+` for a day offset, from src/perturb.cpp: the
entire offset is added to the fine component only. -/
def JulianDate.add (t : JulianDate) (delta_jd : ℚ) : JulianDate :=
  { jd := t.jd, jd_frac := t.jd_frac + delta_jd }

/-- `gravconsttype` of the bundled SGP4 core (wgs72old, wgs72, wgs84). -/
inductive gravconsttype
  | wgs72old
  | wgs72
  | wgs84
deriving DecidableEq

/-- Underlying integer value of `GravModel::WGS72_OLD` (first enumerator). -/
def GravModel.WGS72_OLD : Int := 0

/-- Underlying integer value of `GravModel::WGS72` (second enumerator). -/
def GravModel.WGS72 : Int := 1

/-- Underlying integer value of `GravModel::WGS84` (third enumerator). -/
def GravModel.WGS84 : Int := 2

/-- `convert_grav_model` from src/perturb.cpp: a switch over the `GravModel`
enumeration (modelled by its underlying integer value); every value not
matching one of the three enumerators falls through to the default case,
which selects wgs72. -/
def convert_grav_model (model : Int) : gravconsttype :=
  if model = GravModel.WGS72_OLD then gravconsttype.wgs72old
  else if model = GravModel.WGS72 then gravconsttype.wgs72
  else if model = GravModel.WGS84 then gravconsttype.wgs84
  else gravconsttype.wgs72

/-- The `Sgp4Error` enumeration of include/perturb/perturb.hpp, in
declaration order. -/
inductive Sgp4Error
  | NONE
  | MEAN_ELEMENTS
  | MEAN_MOTION
  | PERT_ELEMENTS
  | SEMI_LATUS_RECTUM
  | EPOCH_ELEMENTS_SUB_ORBITAL
  | DECAYED
  | INVALID_TLE
  | UNKNOWN
deriving DecidableEq

/-- `convert_sgp4_error_code` from src/perturb.cpp: out-of-range codes map
to UNKNOWN (= 8), in-range codes cast to the corresponding enumerator. -/
def convert_sgp4_error_code (error_code : Int) : Sgp4Error :=
  if error_code < 0 ∨ 8 ≤ error_code then Sgp4Error.UNKNOWN
  else if error_code = 0 then Sgp4Error.NONE
  else if error_code = 1 then Sgp4Error.MEAN_ELEMENTS
  else if error_code = 2 then Sgp4Error.MEAN_MOTION
  else if error_code = 3 then Sgp4Error.PERT_ELEMENTS
  else if error_code = 4 then Sgp4Error.SEMI_LATUS_RECTUM
  else if error_code = 5 then Sgp4Error.EPOCH_ELEMENTS_SUB_ORBITAL
  else if error_code = 6 then Sgp4Error.DECAYED
  else Sgp4Error.INVALID_TLE

/-- The SGP4 `elsetrec` record, keeping exactly the fields that
src/perturb.cpp reads directly (the latched error code and the split epoch)
and abstracting the remaining numerical state of the Vallado record into
`core`. -/
structure elsetrec (α : Type) where
  error : Int
  jdsatepoch : ℚ
  jdsatepochF : ℚ
  core : α

/-- A 3-vector of (exact-real valued) doubles, standing for
`std::array<double, 3>`. -/
structure Vec3 where
  x : ℚ
  y : ℚ
  z : ℚ

/-- `Satellite::last_error` from src/perturb.cpp. -/
def Satellite.last_error {α : Type} (sat_rec : elsetrec α) : Sgp4Error :=
  convert_sgp4_error_code sat_rec.error

/-- `Satellite::epoch` from src/perturb.cpp. -/
def Satellite.epoch {α : Type} (sat_rec : elsetrec α) : JulianDate :=
  { jd := sat_rec.jdsatepoch, jd_frac := sat_rec.jdsatepochF }

/-- `Satellite::propagate_from_epoch` from src/perturb.cpp: run the SGP4
core on the record and the elapsed minutes (the core updates the record,
latching any error, and produces the position and velocity vectors), then
return `last_error()` of the updated record.  The numerical core
`vallado_sgp4::sgp4` is taken as a parameter, so the theorems relating the
two entry points hold for every behaviour of the core. -/
def Satellite.propagate_from_epoch {α : Type}
    (sgp4 : elsetrec α → ℚ → elsetrec α × Vec3 × Vec3)
    (sat_rec : elsetrec α) (mins_from_epoch : ℚ) :
    elsetrec α × Vec3 × Vec3 × Sgp4Error :=
  let r := sgp4 sat_rec mins_from_epoch
  (r.1, r.2.1, r.2.2, Satellite.last_error r.1)

/-- `Satellite::propagate` from src/perturb.cpp: convert the absolute
Julian date to elapsed minutes since the record's epoch using
`MINS_PER_DAY = 24 * 60`, then defer to `propagate_from_epoch`. -/
def Satellite.propagate {α : Type}
    (sgp4 : elsetrec α → ℚ → elsetrec α × Vec3 × Vec3)
    (sat_rec : elsetrec α) (jd : JulianDate) :
    elsetrec α × Vec3 × Vec3 × Sgp4Error :=
  let delta_jd : ℚ := JulianDate.sub jd (Satellite.epoch sat_rec)
  let mins_from_epoch : ℚ := delta_jd * (24 * 60)
  Satellite.propagate_from_epoch sgp4 sat_rec mins_from_epoch

/-- The epoch-year pivot of the `Satellite` TLE constructor:
`t.year = sat_rec.epochyr + ((sat_rec.epochyr < 57) ? 2000 : 1900)`. -/
def Satellite.epoch_full_year (epochyr : Nat) : Nat :=
  epochyr + (if epochyr < 57 then 2000 else 1900)

/-- The `TLEParseError` enumeration of include/perturb/tle.hpp,
in declaration order. -/
inductive TLEParseError
  | NONE
  | SHOULD_BE_SPACE
  | INVALID_FORMAT
  | INVALID_VALUE
  | CHECKSUM_MISMATCH
deriving DecidableEq

/-- The NUL terminator of a C string; `charAt` yields it past the end of a
line, so running off a 69-character line behaves like hitting the
terminator. -/
def NUL : Char := Char.ofNat 0

/-- `line[i]` for a NUL-terminated C string modelled as the list of its
characters. -/
def charAt (l : List Char) (i : Nat) : Char := l.getD i NUL

/-- C `isspace` over the execution character set: space, tab, newline,
vertical tab, form feed, carriage return. -/
def isSpaceChar (c : Char) : Bool :=
  c = ' ' || c.toNat = 9 || c.toNat = 10 || c.toNat = 11 || c.toNat = 12 || c.toNat = 13

/-- An `sscanf` read position: the unread tail of the input and the number
of characters consumed so far (what a `%n` directive would store). -/
structure Cursor where
  rest : List Char
  used : Nat
deriving DecidableEq

/-- Count and drop the leading whitespace of the input. -/
def skipWsCount : List Char → Nat × List Char
  | [] => (0, [])
  | c :: cs =>
    if isSpaceChar c then
      let r := skipWsCount cs
      (r.1 + 1, r.2)
    else (0, c :: cs)

/-- Whitespace skipping, as performed by a whitespace byte in an `sscanf`
format string and by every conversion except `%c`. -/
def skipWs (cur : Cursor) : Cursor :=
  let r := skipWsCount cur.rest
  { rest := r.2, used := cur.used + r.1 }

/-- Take at most the given number of leading decimal digits. -/
def takeDigits : Nat → List Char → List Char × List Char
  | 0, l => ([], l)
  | _ + 1, [] => ([], [])
  | w + 1, c :: cs =>
    if c.isDigit then
      let r := takeDigits w cs
      (c :: r.1, r.2)
    else ([], c :: cs)

/-- Take at most the given number of leading non-whitespace characters. -/
def takeNonWs : Nat → List Char → List Char × List Char
  | 0, l => ([], l)
  | _ + 1, [] => ([], [])
  | w + 1, c :: cs =>
    if isSpaceChar c then ([], c :: cs)
    else
      let r := takeNonWs w cs
      (c :: r.1, r.2)

/-- Value of a digit string. -/
def digitsVal (ds : List Char) : Nat := ds.foldl (fun a c => 10 * a + (c.toNat - 48)) 0

/-- Length (0 or 1) of an optional leading sign. -/
def signLen (l : List Char) : Nat :=
  match l with
  | c :: _ => if c = '+' || c = '-' then 1 else 0
  | [] => 0

/-- Whether the input starts with a minus sign. -/
def signNeg (l : List Char) : Bool :=
  match l with
  | c :: _ => c = '-'
  | [] => false

/-- `sscanf` `%Nu`-family conversion (`%1hhu`, `%2u`, `%7lu`, ...): skip
whitespace, read an optionally signed run of digits not exceeding the field
width, fail when no digit is read, and reduce the value modulo the width of
the unsigned destination type (`bits` = 8, 32 or 64), with a minus sign
negating modulo that width. -/
def scanUnsigned (bits width : Nat) (cur : Cursor) : Option (Nat × Cursor) :=
  let c1 := skipWs cur
  let sl := signLen c1.rest
  let neg := signNeg c1.rest
  let r := takeDigits (width - sl) (c1.rest.drop sl)
  if r.1 = [] then none
  else
    let m := digitsVal r.1
    let v := if neg then (2 ^ bits - m % 2 ^ bits) % 2 ^ bits else m % 2 ^ bits
    some (v, { rest := r.2, used := c1.used + sl + r.1.length })

/-- `sscanf` `%Nd` conversion: as `scanUnsigned` but signed. -/
def scanInt (width : Nat) (cur : Cursor) : Option (Int × Cursor) :=
  let c1 := skipWs cur
  let sl := signLen c1.rest
  let neg := signNeg c1.rest
  let r := takeDigits (width - sl) (c1.rest.drop sl)
  if r.1 = [] then none
  else
    let v : Int := if neg then -(digitsVal r.1 : Int) else (digitsVal r.1 : Int)
    some (v, { rest := r.2, used := c1.used + sl + r.1.length })

/-- `sscanf` `%Ns` conversion: skip whitespace, then read a non-empty run
of non-whitespace characters not exceeding the field width; fails only at
end of input. -/
def scanStr (width : Nat) (cur : Cursor) : Option (List Char × Cursor) :=
  let c1 := skipWs cur
  let r := takeNonWs width c1.rest
  if r.1 = [] then none
  else some (r.1, { rest := r.2, used := c1.used + r.1.length })

/-- `sscanf` `%1c` conversion: read exactly one character, any character,
without skipping whitespace. -/
def scanChar1 (cur : Cursor) : Option (Char × Cursor) :=
  match cur.rest with
  | [] => none
  | c :: cs => some (c, { rest := cs, used := cur.used + 1 })

/-- An exact decimal number `m / 10^e`, the model of a `double` scanned
from a decimal field of a TLE line. -/
structure Dec where
  m : Int
  e : Nat
deriving DecidableEq

/-- Multiply a decimal by an integer power of ten (the
`value * pow(10.0, exp)` post-processing step of the parser). -/
def Dec.mulPow10 (a : Dec) (z : Int) : Dec :=
  if 0 ≤ z then { m := a.m * 10 ^ z.toNat, e := a.e }
  else { m := a.m, e := a.e + (-z).toNat }

/-- The rational value of a decimal. -/
def Dec.toRat (a : Dec) : ℚ := (a.m : ℚ) / 10 ^ a.e

/-- Order on decimals by cross-multiplication; agrees with the order of the
rational values (`Dec.ble_iff`). -/
def Dec.ble (a b : Dec) : Bool := decide (a.m * 10 ^ b.e ≤ b.m * 10 ^ a.e)

/-- `sscanf` `%Nlf` conversion: skip whitespace, then greedily match
`[sign] digits [. digits] [ (e|E) [sign] digits ]` within the field width;
the conversion succeeds when at least one mantissa digit was read.  An
`e`/`E` not followed by a digit run inside the width is left unread. -/
def scanFloat (width : Nat) (cur : Cursor) : Option (Dec × Cursor) :=
  let c1 := skipWs cur
  let sl := signLen c1.rest
  let neg := signNeg c1.rest
  let ri := takeDigits (width - sl) (c1.rest.drop sl)
  let wAfterInt := width - sl - ri.1.length
  let hasDot : Bool :=
    decide (0 < wAfterInt) && (match ri.2 with | c :: _ => c = '.' | [] => false)
  let rf :=
    if hasDot then takeDigits (wAfterInt - 1) (ri.2.drop 1) else ([], ri.2)
  if ri.1 = [] ∧ rf.1 = [] then none
  else
    let mantUsed := sl + ri.1.length + (if hasDot then 1 else 0) + rf.1.length
    let mant : Int :=
      (if neg then -1 else 1)
        * ((digitsVal ri.1 : Int) * 10 ^ rf.1.length + (digitsVal rf.1 : Int))
    let base : Dec := { m := mant, e := rf.1.length }
    let wAfterMant := width - mantUsed
    match rf.2 with
    | c :: cs =>
      if (c = 'e' || c = 'E') && decide (0 < wAfterMant) then
        let esl := signLen cs
        let eneg := signNeg cs
        let re := takeDigits (wAfterMant - 1 - esl) (cs.drop esl)
        if re.1 = [] then
          some (base, { rest := rf.2, used := c1.used + mantUsed })
        else
          let ev : Int := if eneg then -(digitsVal re.1 : Int) else (digitsVal re.1 : Int)
          some (base.mulPow10 ev,
            { rest := re.2, used := c1.used + mantUsed + 1 + esl + re.1.length })
      else some (base, { rest := rf.2, used := c1.used + mantUsed })
    | [] => some (base, { rest := [], used := c1.used + mantUsed })

/-- Destinations of the line-1 `sscanf` call of `TwoLineElement::parse`
(src/common_private.h).  `scanned` counts the successful conversions, as
the `sscanf` return value does; fields beyond the failure point keep their
defaults, mirroring that `sscanf` leaves later destinations unassigned. -/
structure L1Scan where
  scanned : Nat := 0
  line1_num : Nat := 0
  catalog_number : List Char := []
  classification : Char := NUL
  launch_year : Nat := 0
  launch_number : Nat := 0
  launch_piece : List Char := []
  epoch_year : Nat := 0
  epoch_day_of_year : Dec := { m := 0, e := 0 }
  n_dot : Dec := { m := 0, e := 0 }
  n_ddot : Dec := { m := 0, e := 0 }
  n_ddot_exp : Int := 0
  b_star : Dec := { m := 0, e := 0 }
  b_star_exp : Int := 0
  ephemeris_type : Nat := 0
  element_set_number : Nat := 0
  pre_checksum : Nat := 0
  line_1_checksum : Nat := 0
deriving DecidableEq

/-- Destinations of the line-2 `sscanf` call of `TwoLineElement::parse`. -/
structure L2Scan where
  scanned : Nat := 0
  line2_num : Nat := 0
  catlog_num_line2 : List Char := []
  inclination : Dec := { m := 0, e := 0 }
  raan : Dec := { m := 0, e := 0 }
  eccentricity_int : Nat := 0
  arg_of_perigee : Dec := { m := 0, e := 0 }
  mean_anomaly : Dec := { m := 0, e := 0 }
  mean_motion : Dec := { m := 0, e := 0 }
  revolution_number : Nat := 0
  pre_checksum : Nat := 0
  line_2_checksum : Nat := 0
deriving DecidableEq

/-- Run one conversion: on matching or input failure `sscanf` stops and the
record accumulated so far is the result. -/
def scanStep {σ β : Type} (r : σ) (res : Option (β × Cursor)) (k : β → Cursor → σ) : σ :=
  match res with
  | none => r
  | some (v, c) => k v c

/-- The line-1 scan
`"%1hhu %5s %1c %2u %3u %3s %2u %12lf %10lf %6lf %2d %6lf %2d %1hhu %4u %n %1hhu"`.
Whitespace bytes of the format are absorbed by the whitespace skipping of
the following conversion, except before `%1c` and `%n` where they are
applied explicitly. -/
def scanLine1 (l : List Char) : L1Scan :=
  scanStep ({} : L1Scan) (scanUnsigned 8 1 { rest := l, used := 0 }) fun v1 c1 =>
  let r1 : L1Scan := { scanned := 1, line1_num := v1 }
  scanStep r1 (scanStr 5 c1) fun v2 c2 =>
  let r2 : L1Scan := { r1 with scanned := 2, catalog_number := v2 }
  scanStep r2 (scanChar1 (skipWs c2)) fun v3 c3 =>
  let r3 : L1Scan := { r2 with scanned := 3, classification := v3 }
  scanStep r3 (scanUnsigned 32 2 c3) fun v4 c4 =>
  let r4 : L1Scan := { r3 with scanned := 4, launch_year := v4 }
  scanStep r4 (scanUnsigned 32 3 c4) fun v5 c5 =>
  let r5 : L1Scan := { r4 with scanned := 5, launch_number := v5 }
  scanStep r5 (scanStr 3 c5) fun v6 c6 =>
  let r6 : L1Scan := { r5 with scanned := 6, launch_piece := v6 }
  scanStep r6 (scanUnsigned 32 2 c6) fun v7 c7 =>
  let r7 : L1Scan := { r6 with scanned := 7, epoch_year := v7 }
  scanStep r7 (scanFloat 12 c7) fun v8 c8 =>
  let r8 : L1Scan := { r7 with scanned := 8, epoch_day_of_year := v8 }
  scanStep r8 (scanFloat 10 c8) fun v9 c9 =>
  let r9 : L1Scan := { r8 with scanned := 9, n_dot := v9 }
  scanStep r9 (scanFloat 6 c9) fun v10 c10 =>
  let r10 : L1Scan := { r9 with scanned := 10, n_ddot := v10 }
  scanStep r10 (scanInt 2 c10) fun v11 c11 =>
  let r11 : L1Scan := { r10 with scanned := 11, n_ddot_exp := v11 }
  scanStep r11 (scanFloat 6 c11) fun v12 c12 =>
  let r12 : L1Scan := { r11 with scanned := 12, b_star := v12 }
  scanStep r12 (scanInt 2 c12) fun v13 c13 =>
  let r13 : L1Scan := { r12 with scanned := 13, b_star_exp := v13 }
  scanStep r13 (scanUnsigned 8 1 c13) fun v14 c14 =>
  let r14 : L1Scan := { r13 with scanned := 14, ephemeris_type := v14 }
  scanStep r14 (scanUnsigned 32 4 c14) fun v15 c15 =>
  let c15n := skipWs c15
  let r15 : L1Scan :=
    { r14 with scanned := 15, element_set_number := v15, pre_checksum := c15n.used }
  scanStep r15 (scanUnsigned 8 1 c15n) fun v16 _ =>
  { r15 with scanned := 16, line_1_checksum := v16 }

/-- The line-2 scan, `"%1hhu %5s %8lf %8lf %7lu %8lf %8lf %11lf %5lu %n %1hhu"`
when `line_2[52] != ' '` and the same with `%10lf` for the mean-motion
field otherwise, exactly as `TwoLineElement::parse` selects between its two
format strings. -/
def scanLine2 (l : List Char) : L2Scan :=
  let mean_motion_width : Nat := if charAt l 52 ≠ ' ' then 11 else 10
  scanStep ({} : L2Scan) (scanUnsigned 8 1 { rest := l, used := 0 }) fun v1 c1 =>
  let r1 : L2Scan := { scanned := 1, line2_num := v1 }
  scanStep r1 (scanStr 5 c1) fun v2 c2 =>
  let r2 : L2Scan := { r1 with scanned := 2, catlog_num_line2 := v2 }
  scanStep r2 (scanFloat 8 c2) fun v3 c3 =>
  let r3 : L2Scan := { r2 with scanned := 3, inclination := v3 }
  scanStep r3 (scanFloat 8 c3) fun v4 c4 =>
  let r4 : L2Scan := { r3 with scanned := 4, raan := v4 }
  scanStep r4 (scanUnsigned 64 7 c4) fun v5 c5 =>
  let r5 : L2Scan := { r4 with scanned := 5, eccentricity_int := v5 }
  scanStep r5 (scanFloat 8 c5) fun v6 c6 =>
  let r6 : L2Scan := { r5 with scanned := 6, arg_of_perigee := v6 }
  scanStep r6 (scanFloat 8 c6) fun v7 c7 =>
  let r7 : L2Scan := { r6 with scanned := 7, mean_anomaly := v7 }
  scanStep r7 (scanFloat mean_motion_width c7) fun v8 c8 =>
  let r8 : L2Scan := { r7 with scanned := 8, mean_motion := v8 }
  scanStep r8 (scanUnsigned 64 5 c8) fun v9 c9 =>
  let c9n := skipWs c9
  let r9 : L2Scan :=
    { r8 with scanned := 9, revolution_number := v9, pre_checksum := c9n.used }
  scanStep r9 (scanUnsigned 8 1 c9n) fun v10 _ =>
  { r9 with scanned := 10, line_2_checksum := v10 }

/-- The mandatory space columns of line 1 (1-based), from
`TwoLineElement::parse`. -/
def LINE_1_SPACES : List Nat := [2, 9, 18, 33, 44, 53, 62, 64]

/-- The mandatory space columns of line 2 (1-based). -/
def LINE_2_SPACES : List Nat := [2, 8, 17, 26, 34, 43, 52]

/-- The line-1 mandatory-space check. -/
def line1SpacesOk (line_1 : List Char) : Bool :=
  LINE_1_SPACES.all fun i => charAt line_1 (i - 1) = ' '

/-- The line-2 mandatory-space check. -/
def line2SpacesOk (line_2 : List Char) : Bool :=
  LINE_2_SPACES.all fun i => charAt line_2 (i - 1) = ' '

/-- `static_cast<unsigned char>(c - '0')`. -/
def ucharDigitVal (c : Char) : Nat := (((c.toNat : Int) - 48) % 256).toNat

/-- The line-1 over-consumption fix of `TwoLineElement::parse`: when the
element-set-number field lacked leading zeroes, `%4u` swallowed the
trailing checksum digit; detected by 15 conversions, a scan cursor at or
past the line length 69 and a blank at index 64, and corrected by chopping
the least-significant digit off the element-set number and re-reading the
checksum from the known last character of the line. -/
def fix_l1_checksum (line_1 : List Char) (s : L1Scan) : L1Scan :=
  if s.scanned = 15 ∧ 69 ≤ s.pre_checksum ∧ charAt line_1 (69 - 5) = ' ' then
    { s with element_set_number := s.element_set_number / 10,
             line_1_checksum := ucharDigitVal (charAt line_1 (69 - 1)),
             scanned := s.scanned + 1 }
  else s

/-- The line-2 over-consumption fix, for the revolution-number field:
9 conversions, cursor at or past 69, blank at index 63. -/
def fix_l2_checksum (line_2 : List Char) (s : L2Scan) : L2Scan :=
  if s.scanned = 9 ∧ 69 ≤ s.pre_checksum ∧ charAt line_2 (69 - 6) = ' ' then
    { s with revolution_number := s.revolution_number / 10,
             line_2_checksum := ucharDigitVal (charAt line_2 (69 - 1)),
             scanned := s.scanned + 1 }
  else s

/-- The exponent adjustments of `TwoLineElement::parse`: when the n-ddot or
b-star field has no leading decimal point (checked at fixed character
positions 44 and 53), the decoded exponent is shifted by -5. -/
def adjust_exps (line_1 : List Char) (s : L1Scan) : L1Scan :=
  let s1 := if charAt line_1 44 ≠ '.' then { s with n_ddot_exp := s.n_ddot_exp - 5 } else s
  if charAt line_1 53 ≠ '.' then { s1 with b_star_exp := s1.b_star_exp - 5 } else s1

/-- The line-1 scan results after the over-consumption fix and the
exponent adjustments, as they stand when `TwoLineElement::parse` reaches
its format-count check. -/
def l1res (line_1 : List Char) : L1Scan :=
  adjust_exps line_1 (fix_l1_checksum line_1 (scanLine1 line_1))

/-- The line-2 scan results after the over-consumption fix. -/
def l2res (line_2 : List Char) : L2Scan :=
  fix_l2_checksum line_2 (scanLine2 line_2)

/-- The `valid_vals` conjunction of `TwoLineElement::parse`, clause for
clause in source order. -/
def valid_vals (s1 : L1Scan) (s2 : L2Scan) : Bool :=
  (s1.line1_num == 1)
  && ((s1.classification == 'U') || (s1.classification == 'C') || (s1.classification == 'S'))
  && (s1.launch_year < 100) && (s1.epoch_year < 100)
  && Dec.ble { m := 1, e := 0 } s1.epoch_day_of_year
  && Dec.ble s1.epoch_day_of_year { m := 366, e := 0 }
  && (-15 < s1.n_ddot_exp) && (s1.n_ddot_exp < 10)
  && (-15 < s1.b_star_exp) && (s1.b_star_exp < 10)
  && (s1.ephemeris_type == 0)
  && (s1.element_set_number < 10000)
  && (s2.line2_num == 2)
  && (s1.catalog_number == s2.catlog_num_line2)
  && Dec.ble { m := 0, e := 0 } s2.inclination && Dec.ble s2.inclination { m := 180, e := 0 }
  && Dec.ble { m := 0, e := 0 } s2.raan && Dec.ble s2.raan { m := 360, e := 0 }
  && Dec.ble { m := 0, e := 0 } s2.arg_of_perigee && Dec.ble s2.arg_of_perigee { m := 360, e := 0 }
  && Dec.ble { m := 0, e := 0 } s2.mean_anomaly && Dec.ble s2.mean_anomaly { m := 360, e := 0 }

/-- `calc_tle_line_checksum` from src/common_private.h: over the first 68
characters of the line, sum the value of every digit character and add one
for every minus sign, then reduce modulo 10. -/
def calc_tle_line_checksum (line : List Char) : Nat :=
  ((line.take 68).foldl
    (fun checksum c =>
      checksum + (if c.isDigit then c.toNat - 48 else 0) + (if c = '-' then 1 else 0))
    0) % 10

/-- `TwoLineElement::parse` from src/common_private.h: mandatory-space
checks on both lines, then the two scans with their fixes and exponent
adjustments, then the conversion-count check, then the decoded-value
check, then the checksum comparison. -/
def parse (line_1 line_2 : List Char) : TLEParseError :=
  if line1SpacesOk line_1 = false then TLEParseError.SHOULD_BE_SPACE
  else if line2SpacesOk line_2 = false then TLEParseError.SHOULD_BE_SPACE
  else
    let s1 := l1res line_1
    let s2 := l2res line_2
    if s1.scanned ≠ 16 ∨ s2.scanned ≠ 10 then TLEParseError.INVALID_FORMAT
    else if valid_vals s1 s2 = false then TLEParseError.INVALID_VALUE
    else if ¬ (calc_tle_line_checksum line_1 = s1.line_1_checksum
               ∧ calc_tle_line_checksum line_2 = s2.line_2_checksum) then
      TLEParseError.CHECKSUM_MISMATCH
    else TLEParseError.NONE

/-- The ISS element set of the repository's test suite, line 1. -/
def ISS_TLE_1 : List Char :=
  "1 25544U 98067A   22071.78032407  .00021395  00000-0  39008-3 0  9996".toList

/-- The ISS element set of the repository's test suite, line 2. -/
def ISS_TLE_2 : List Char :=
  "2 25544  51.6424  94.0370 0004047 256.5103  89.8846 15.49386383330227".toList

/-- The test suite's alternate-notation line 2: mean motion below 10 and a
revolution-number field without leading zeroes, so the line-2
over-consumption fix fires. -/
def ALT_TLE_2 : List Char :=
  "2 25544  51.6424  94.0370 0004047 256.5103  89.8846  5.49386383 30223".toList

/-- ISS line 1 with the mandatory space at column 9 replaced by `*` and
the checksum digit altered, so the line has both a missing mandatory space
and a mismatched checksum. -/
def BADSPACE_BADCKS_TLE_1 : List Char :=
  "1 25544U*98067A   22071.78032407  .00021395  00000-0  39008-3 0  9990".toList

/-- ISS line 2 with the checksum digit altered from 7 to 0 (the test
suite's checksum-mismatch input). -/
def BADCKS_TLE_2 : List Char :=
  "2 25544  51.6424  94.0370 0004047 256.5103  89.8846 15.49386383330220".toList

/-- ISS line 1 with a `*` inside the epoch field (the test suite's
invalid-format input): the `%12lf` conversion stops early, so the
conversion count falls short. -/
def BADFMT_TLE_1 : List Char :=
  "1 25544U 98067A   22071.78*32407  .00021395  00000-0  39008-3 0  9996".toList

/-- ISS line 1 with the classification changed from `U` to `X`: every
mandatory space is in place and the scan converts all fields, but the
decoded classification is not one of U, C, S. -/
def BADCLS_TLE_1 : List Char :=
  "1 25544X 98067A   22071.78032407  .00021395  00000-0  39008-3 0  9996".toList

/-- Helper: a date on which neither adjustment of `normalize` fires is a
fixed point of `normalize`. -/
theorem normalize_fixed (t : JulianDate)
    (h1 : ¬ |t.jd - ⌊t.jd⌋ - 1 / 2| > 1 / 1000000000000)
    (h2 : ¬ |t.jd_frac| ≥ 1) : JulianDate.normalize t = t := by
  simp only [JulianDate.normalize, if_neg h1, if_neg h2]

/-- Helper: the floor of an integer plus one half is that integer. -/
theorem floor_add_half (z : ℤ) : ⌊((z : ℚ) + 1 / 2)⌋ = z := by
  rw [add_comm, Int.floor_add_int]
  norm_num

/-- Claim C2, counterexample: at the date with coarse component 1/2 and fine
component -1/2 neither adjustment of `normalize` fires, so the normalized
fine component is -1/2, which does not lie in [0, 1).  Hence "after
normalize() the fine component lies in [0, 1)" is false as stated. -/
theorem normalize_counterexample :
    ¬ (0 ≤ (JulianDate.normalize { jd := 1/2, jd_frac := -(1/2) }).jd_frac
       ∧ (JulianDate.normalize { jd := 1/2, jd_frac := -(1/2) }).jd_frac < 1) := by
  have hfl : ⌊(1/2 : ℚ)⌋ = 0 := by norm_num
  have h : JulianDate.normalize { jd := 1/2, jd_frac := -(1/2) }
      = { jd := 1/2, jd_frac := -(1/2) } := by
    simp only [JulianDate.normalize, hfl]
    norm_num [abs_lt]
  rw [h]
  norm_num

/-- Claim C2 (amended): normalization is idempotent; after `normalize()` the
coarse component is within 1e-12 days of a half-integer day and the fine
component lies in (-1, 1); and the coarse adjustment fires exactly when the
fractional part of the coarse component exceeds 1e-12 in absolute value, the
coarse component then becoming exactly a half-integer before whole days of
the fine component are moved into it (the final coarse component differs
from that value by a whole number of days). -/
theorem normalize_general (x : Perturb.JulianDate) :
    JulianDate.normalize (JulianDate.normalize x) = JulianDate.normalize x
  ∧ |(JulianDate.normalize x).jd - ⌊(JulianDate.normalize x).jd⌋ - 1 / 2| ≤ 1 / 1000000000000
  ∧ -1 < (JulianDate.normalize x).jd_frac ∧ (JulianDate.normalize x).jd_frac < 1
  ∧ ∃ n : ℤ, (JulianDate.normalize x).jd
      = (if |x.jd - ⌊x.jd⌋ - 1 / 2| > 1 / 1000000000000 then (⌊x.jd⌋ : ℚ) + 1 / 2
         else x.jd) + n := by
  obtain ⟨a, f⟩ := x
  by_cases h1 : |a - ⌊a⌋ - 1 / 2| > 1 / 1000000000000
  · by_cases h2 : |f + (a - ⌊a⌋ - 1 / 2)| ≥ 1
    · have hy : JulianDate.normalize { jd := a, jd_frac := f } =
          { jd := a - (a - ⌊a⌋ - 1 / 2) + (⌊f + (a - ⌊a⌋ - 1 / 2)⌋ : ℚ),
            jd_frac := f + (a - ⌊a⌋ - 1 / 2) - (⌊f + (a - ⌊a⌋ - 1 / 2)⌋ : ℚ) } := by
        simp only [JulianDate.normalize, if_pos h1, if_pos h2]
      set f1 : ℚ := f + (a - ⌊a⌋ - 1 / 2) with hf1
      have hjd : a - (a - ⌊a⌋ - 1 / 2) + (⌊f1⌋ : ℚ) = ((⌊a⌋ + ⌊f1⌋ : ℤ) : ℚ) + 1 / 2 := by
        push_cast; ring
      have hfl : ⌊a - (a - ⌊a⌋ - 1 / 2) + (⌊f1⌋ : ℚ)⌋ = ⌊a⌋ + ⌊f1⌋ := by
        rw [hjd, floor_add_half]
      have hlo : (⌊f1⌋ : ℚ) ≤ f1 := Int.floor_le f1
      have hhi : f1 < ⌊f1⌋ + 1 := Int.lt_floor_add_one f1
      rw [hy]
      dsimp only
      refine ⟨?_, ?_, ?_, ?_, ⟨⌊f1⌋, ?_⟩⟩
      · apply normalize_fixed
        · dsimp only
          rw [hfl, hjd]
          push_cast
          norm_num
        · dsimp only
          rw [not_le, abs_lt]
          constructor <;> linarith
      · rw [hfl, hjd]
        push_cast
        norm_num
      · linarith
      · linarith
      · rw [if_pos h1]
        ring
    · have hy : JulianDate.normalize { jd := a, jd_frac := f } =
          { jd := a - (a - ⌊a⌋ - 1 / 2), jd_frac := f + (a - ⌊a⌋ - 1 / 2) } := by
        simp only [JulianDate.normalize, if_pos h1, if_neg h2]
      rw [not_le, abs_lt] at h2
      have hjd : a - (a - ⌊a⌋ - 1 / 2) = ((⌊a⌋ : ℤ) : ℚ) + 1 / 2 := by ring
      have hfl : ⌊a - (a - ⌊a⌋ - 1 / 2)⌋ = ⌊a⌋ := by rw [hjd, floor_add_half]
      rw [hy]
      dsimp only
      refine ⟨?_, ?_, ?_, ?_, ⟨0, ?_⟩⟩
      · apply normalize_fixed
        · dsimp only
          rw [hfl, hjd]
          norm_num
        · dsimp only
          rw [not_le, abs_lt]
          exact h2
      · rw [hfl, hjd]
        norm_num
      · exact h2.1
      · exact h2.2
      · rw [if_pos h1, hjd]
        push_cast
        ring
  · by_cases h2 : |f| ≥ 1
    · have hy : JulianDate.normalize { jd := a, jd_frac := f } =
          { jd := a + (⌊f⌋ : ℚ), jd_frac := f - (⌊f⌋ : ℚ) } := by
        simp only [JulianDate.normalize, if_neg h1, if_pos h2]
      rw [not_lt, abs_le] at h1
      have hfl : ⌊a + (⌊f⌋ : ℚ)⌋ = ⌊a⌋ + ⌊f⌋ := Int.floor_add_int a ⌊f⌋
      have hlo : (⌊f⌋ : ℚ) ≤ f := Int.floor_le f
      have hhi : f < ⌊f⌋ + 1 := Int.lt_floor_add_one f
      rw [hy]
      dsimp only
      refine ⟨?_, ?_, ?_, ?_, ⟨⌊f⌋, ?_⟩⟩
      · apply normalize_fixed
        · dsimp only
          rw [hfl, not_lt, abs_le]
          push_cast
          constructor <;> linarith [h1.1, h1.2]
        · dsimp only
          rw [not_le, abs_lt]
          constructor <;> linarith
      · rw [hfl, abs_le]
        push_cast
        constructor <;> linarith [h1.1, h1.2]
      · linarith
      · linarith
      · rw [if_neg (by rw [not_lt, abs_le]; exact h1)]
    · have hy : JulianDate.normalize { jd := a, jd_frac := f } =
          { jd := a, jd_frac := f } := by
        simp only [JulianDate.normalize, if_neg h1, if_neg h2]
      rw [not_le, abs_lt] at h2
      rw [hy]
      dsimp only
      refine ⟨?_, ?_, ?_, ?_, ⟨0, ?_⟩⟩
      · apply normalize_fixed
        · dsimp only
          exact h1
        · dsimp only
          rw [not_le, abs_lt]
          exact h2
      · rw [abs_le]
        rw [not_lt, abs_le] at h1
        exact h1
      · exact h2.1
      · exact h2.2
      · rw [if_neg h1]
        push_cast
        ring

/-- Claim C3: subtraction of two Julian dates differences the coarse and
fine components separately before summing, and consequently adding a day
offset D to a date and subtracting the original date yields exactly D. -/
theorem sub_components_and_cancel (a b t : JulianDate) (D : ℚ) :
    JulianDate.sub a b = (a.jd - b.jd) + (a.jd_frac - b.jd_frac)
  ∧ JulianDate.sub (JulianDate.add t D) t = D := by
  refine ⟨rfl, ?_⟩
  simp only [JulianDate.sub, JulianDate.add]
  ring

/-- Claim C7: adding a day offset leaves the coarse component unchanged and
adds the entire offset to the fine component. -/
theorem add_offset_only_fine (t : JulianDate) (d : ℚ) :
    (JulianDate.add t d).jd = t.jd
  ∧ (JulianDate.add t d).jd_frac = t.jd_frac + d :=
  ⟨rfl, rfl⟩

/-- Claim C8: the gravity-model selection is total: each of the three
enumerators maps to its corresponding constant-set selector and every other
underlying value maps to the WGS72 default. -/
theorem convert_grav_model_total :
    convert_grav_model GravModel.WGS72_OLD = gravconsttype.wgs72old
  ∧ convert_grav_model GravModel.WGS72 = gravconsttype.wgs72
  ∧ convert_grav_model GravModel.WGS84 = gravconsttype.wgs84
  ∧ ∀ m : Int, m ≠ GravModel.WGS72_OLD → m ≠ GravModel.WGS72 →
      m ≠ GravModel.WGS84 → convert_grav_model m = gravconsttype.wgs72 := by
  refine ⟨rfl, rfl, rfl, ?_⟩
  intro m h0 h1 h2
  simp [convert_grav_model, h0, h1, h2]

/-- Witness for C8: the unrecognized enumeration value 7 maps to wgs72. -/
theorem convert_grav_model_total_witness :
    convert_grav_model 7 = gravconsttype.wgs72 :=
  convert_grav_model_total.2.2.2 7 (by decide) (by decide) (by decide)

/-- Claim C9: propagating to an absolute Julian date equals propagating from
epoch with elapsed minutes computed as the date difference times 1440, for
every behaviour of the underlying SGP4 core: the updated record, position,
velocity and returned error code all coincide. -/
theorem propagate_refines_from_epoch {α : Type}
    (sgp4 : elsetrec α → ℚ → elsetrec α × Vec3 × Vec3) (sat_rec : elsetrec α)
    (jd : JulianDate) :
    Satellite.propagate sgp4 sat_rec jd
      = Satellite.propagate_from_epoch sgp4 sat_rec
          (JulianDate.sub jd (Satellite.epoch sat_rec) * (24 * 60)) := rfl

/-- Claim C10: the two-digit epoch year of a parsed TLE (always below 100)
is pivoted at 57, placing every TLE epoch in the calendar range 1957
through 2056. -/
theorem epoch_full_year_range (epochyr : Nat) (h : epochyr < 100) :
    Satellite.epoch_full_year epochyr
      = (if epochyr < 57 then 2000 + epochyr else 1900 + epochyr)
  ∧ 1957 ≤ Satellite.epoch_full_year epochyr
  ∧ Satellite.epoch_full_year epochyr ≤ 2056 := by
  unfold Satellite.epoch_full_year
  by_cases h57 : epochyr < 57 <;> simp only [h57, if_pos, if_neg, if_true, if_false] <;> omega

/-- Witness for C10 at the ISS epoch year 22: since 22 < 57 the full year
is 2022, inside [1957, 2056]. -/
theorem epoch_full_year_range_witness :
    Satellite.epoch_full_year 22
      = (if 22 < 57 then 2000 + 22 else 1900 + 22)
  ∧ 1957 ≤ Satellite.epoch_full_year 22
  ∧ Satellite.epoch_full_year 22 ≤ 2056 :=
  epoch_full_year_range 22 (by decide)


/-- Claim C1: `TwoLineElement::parse` checks the error classes in the fixed
order SHOULD_BE_SPACE, INVALID_FORMAT, INVALID_VALUE, CHECKSUM_MISMATCH and
returns the first failing class: any input with a missing mandatory space
(in particular one that also has a bad checksum) returns SHOULD_BE_SPACE;
an INVALID_FORMAT result implies the space checks passed and the
conversion-count check failed; an INVALID_VALUE result implies the space
checks and the conversion-count check passed and the value check failed;
and a CHECKSUM_MISMATCH result implies the space, format and value checks
all passed. -/
theorem parse_error_ordering (line_1 line_2 : List Char) :
    ((line1SpacesOk line_1 = false ∨ line2SpacesOk line_2 = false) →
      parse line_1 line_2 = TLEParseError.SHOULD_BE_SPACE)
  ∧ (parse line_1 line_2 = TLEParseError.INVALID_FORMAT →
      line1SpacesOk line_1 = true ∧ line2SpacesOk line_2 = true
      ∧ ¬ ((l1res line_1).scanned = 16 ∧ (l2res line_2).scanned = 10))
  ∧ (parse line_1 line_2 = TLEParseError.INVALID_VALUE →
      line1SpacesOk line_1 = true ∧ line2SpacesOk line_2 = true
      ∧ (l1res line_1).scanned = 16 ∧ (l2res line_2).scanned = 10
      ∧ valid_vals (l1res line_1) (l2res line_2) = false)
  ∧ (parse line_1 line_2 = TLEParseError.CHECKSUM_MISMATCH →
      line1SpacesOk line_1 = true ∧ line2SpacesOk line_2 = true
      ∧ (l1res line_1).scanned = 16 ∧ (l2res line_2).scanned = 10
      ∧ valid_vals (l1res line_1) (l2res line_2) = true) := by
  refine ⟨?_, ?_, ?_, ?_⟩
  · intro h
    rcases h with h | h
    · simp [parse, h]
    · by_cases h1 : line1SpacesOk line_1 = false
      · simp [parse, h1]
      · simp [parse, h1, h]
  · intro h
    simp only [parse] at h
    split_ifs at h with h1 h2 h3 h4 h5
    refine ⟨by simpa using h1, by simpa using h2, ?_⟩
    intro hc
    rcases h3 with h3 | h3
    · exact h3 hc.1
    · exact h3 hc.2
  · intro h
    simp only [parse] at h
    split_ifs at h with h1 h2 h3 h4 h5
    refine ⟨by simpa using h1, by simpa using h2, ?_, ?_, h4⟩
    · rcases not_or.mp h3 with ⟨h31, _⟩
      exact not_not.mp h31
    · rcases not_or.mp h3 with ⟨_, h32⟩
      exact not_not.mp h32
  · intro h
    simp only [parse] at h
    split_ifs at h with h1 h2 h3 h4 h5
    refine ⟨by simpa using h1, by simpa using h2, ?_, ?_, by simpa using h4⟩
    · rcases not_or.mp h3 with ⟨h31, _⟩
      exact not_not.mp h31
    · rcases not_or.mp h3 with ⟨_, h32⟩
      exact not_not.mp h32

/-- Helper: the checksum accumulation loop computes the sum of the
per-character contributions. -/
theorem checksum_foldl_eq_sum (l : List Char) (n : Nat) :
    l.foldl
      (fun checksum c =>
        checksum + (if c.isDigit then c.toNat - 48 else 0) + (if c = '-' then 1 else 0))
      n
    = n + ((l.map fun c =>
        (if c.isDigit then c.toNat - 48 else 0) + (if c = '-' then 1 else 0))).sum := by
  induction l generalizing n with
  | nil => simp
  | cons c cs ih =>
    simp only [List.foldl_cons, List.map_cons, List.sum_cons, ih]
    omega

/-- Helper: the cross-multiplication order on decimals agrees with the
order of their rational values. -/
theorem Dec.ble_iff (a b : Dec) : Dec.ble a b = true ↔ a.toRat ≤ b.toRat := by
  unfold Dec.ble Dec.toRat
  rw [decide_eq_true_iff]
  rw [div_le_div_iff₀ (by positivity) (by positivity)]
  constructor <;> intro h <;> exact_mod_cast h

/-- Helper: the rational value of an integer decimal. -/
theorem Dec.toRat_int (n : Int) : Dec.toRat { m := n, e := 0 } = (n : ℚ) := by
  simp [Dec.toRat]

/-- Claim C4: the per-line checksum is the sum over the first 68
characters of every digit's value plus 1 per minus sign, modulo 10; and
when the space, format and value checks all pass, `parse` returns
CHECKSUM_MISMATCH exactly when either line's computed checksum differs
from that line's transmitted checksum digit, and NONE otherwise. -/
theorem parse_checksum_iff (line_1 line_2 : List Char)
    (hsp1 : line1SpacesOk line_1 = true) (hsp2 : line2SpacesOk line_2 = true)
    (hf1 : (l1res line_1).scanned = 16) (hf2 : (l2res line_2).scanned = 10)
    (hv : valid_vals (l1res line_1) (l2res line_2) = true) :
    (∀ l : List Char, calc_tle_line_checksum l =
      ((l.take 68).map fun c =>
        (if c.isDigit then c.toNat - 48 else 0) + (if c = '-' then 1 else 0)).sum % 10)
  ∧ (parse line_1 line_2 = TLEParseError.CHECKSUM_MISMATCH ↔
      (calc_tle_line_checksum line_1 ≠ (l1res line_1).line_1_checksum
       ∨ calc_tle_line_checksum line_2 ≠ (l2res line_2).line_2_checksum))
  ∧ (parse line_1 line_2 = TLEParseError.NONE ↔
      (calc_tle_line_checksum line_1 = (l1res line_1).line_1_checksum
       ∧ calc_tle_line_checksum line_2 = (l2res line_2).line_2_checksum)) := by
  refine ⟨fun l => ?_, ?_, ?_⟩
  · unfold calc_tle_line_checksum
    rw [checksum_foldl_eq_sum]
    simp
  · simp only [parse, hsp1, hsp2, hf1, hf2, hv]
    by_cases hc : calc_tle_line_checksum line_1 = (l1res line_1).line_1_checksum
        ∧ calc_tle_line_checksum line_2 = (l2res line_2).line_2_checksum
    · simp [hc, not_or, hc.1, hc.2]
    · simp [hc]
      exact not_and_or.mp hc
  · simp only [parse, hsp1, hsp2, hf1, hf2, hv]
    by_cases hc : calc_tle_line_checksum line_1 = (l1res line_1).line_1_checksum
        ∧ calc_tle_line_checksum line_2 = (l2res line_2).line_2_checksum
    · simp [hc, hc.1, hc.2]
    · simp [hc]

/-- Helper: the `valid_vals` conjunction of `parse`, restated clause for
clause as a proposition over the decoded values (decimal fields compared
through their exact rational values). -/
theorem valid_vals_iff (s1 : L1Scan) (s2 : L2Scan) :
    valid_vals s1 s2 = true ↔
      ( s1.line1_num = 1
      ∧ (s1.classification = 'U' ∨ s1.classification = 'C' ∨ s1.classification = 'S')
      ∧ s1.launch_year < 100 ∧ s1.epoch_year < 100
      ∧ 1 ≤ s1.epoch_day_of_year.toRat ∧ s1.epoch_day_of_year.toRat ≤ 366
      ∧ -15 < s1.n_ddot_exp ∧ s1.n_ddot_exp < 10
      ∧ -15 < s1.b_star_exp ∧ s1.b_star_exp < 10
      ∧ s1.ephemeris_type = 0
      ∧ s1.element_set_number < 10000
      ∧ s2.line2_num = 2
      ∧ s1.catalog_number = s2.catlog_num_line2
      ∧ 0 ≤ s2.inclination.toRat ∧ s2.inclination.toRat ≤ 180
      ∧ 0 ≤ s2.raan.toRat ∧ s2.raan.toRat ≤ 360
      ∧ 0 ≤ s2.arg_of_perigee.toRat ∧ s2.arg_of_perigee.toRat ≤ 360
      ∧ 0 ≤ s2.mean_anomaly.toRat ∧ s2.mean_anomaly.toRat ≤ 360 ) := by
  unfold valid_vals
  simp only [Bool.and_eq_true, Bool.or_eq_true, beq_iff_eq, decide_eq_true_eq,
    Dec.ble_iff, Dec.toRat_int, Int.cast_one, Int.cast_zero, Int.cast_ofNat, and_assoc, or_assoc]

/-- Claim C5: after a successful format scan, `parse` returns
INVALID_VALUE if and only if at least one decoded value violates the
documented constraints: line-number markers 1 and 2, classification in
{U, C, S}, launch and epoch years below 100, day-of-year in [1, 366], both
exponents strictly between -15 and 10, ephemeris type 0, element-set
number below 10000, matching catalog numbers, inclination in [0, 180] and
RAAN, argument of perigee and mean anomaly in [0, 360]. -/
theorem parse_invalid_value_iff (line_1 line_2 : List Char)
    (hsp1 : line1SpacesOk line_1 = true) (hsp2 : line2SpacesOk line_2 = true)
    (hf1 : (l1res line_1).scanned = 16) (hf2 : (l2res line_2).scanned = 10) :
    parse line_1 line_2 = TLEParseError.INVALID_VALUE ↔
      ¬ ( (l1res line_1).line1_num = 1
        ∧ ((l1res line_1).classification = 'U' ∨ (l1res line_1).classification = 'C'
            ∨ (l1res line_1).classification = 'S')
        ∧ (l1res line_1).launch_year < 100 ∧ (l1res line_1).epoch_year < 100
        ∧ 1 ≤ (l1res line_1).epoch_day_of_year.toRat
        ∧ (l1res line_1).epoch_day_of_year.toRat ≤ 366
        ∧ -15 < (l1res line_1).n_ddot_exp ∧ (l1res line_1).n_ddot_exp < 10
        ∧ -15 < (l1res line_1).b_star_exp ∧ (l1res line_1).b_star_exp < 10
        ∧ (l1res line_1).ephemeris_type = 0
        ∧ (l1res line_1).element_set_number < 10000
        ∧ (l2res line_2).line2_num = 2
        ∧ (l1res line_1).catalog_number = (l2res line_2).catlog_num_line2
        ∧ 0 ≤ (l2res line_2).inclination.toRat ∧ (l2res line_2).inclination.toRat ≤ 180
        ∧ 0 ≤ (l2res line_2).raan.toRat ∧ (l2res line_2).raan.toRat ≤ 360
        ∧ 0 ≤ (l2res line_2).arg_of_perigee.toRat
        ∧ (l2res line_2).arg_of_perigee.toRat ≤ 360
        ∧ 0 ≤ (l2res line_2).mean_anomaly.toRat
        ∧ (l2res line_2).mean_anomaly.toRat ≤ 360 ) := by
  have hmain : parse line_1 line_2 = TLEParseError.INVALID_VALUE ↔
      valid_vals (l1res line_1) (l2res line_2) = false := by
    constructor
    · intro h
      by_contra hvb
      rw [Bool.not_eq_false] at hvb
      simp only [parse, hsp1, hsp2, hf1, hf2, hvb] at h
      split_ifs at h
    · intro hvf
      simp only [parse, hsp1, hsp2, hf1, hf2, hvf]
      simp
  rw [hmain, ← Bool.not_eq_true, valid_vals_iff]

/-- Claim C6: `parse` corrects `sscanf` over-consumption of the trailing
checksum digit.  When the line-1 scan converted only 15 fields, its cursor
reached at least 69 characters and the 65th character (index 64) is a
space, the element-set number is divided by 10 and the line-1 checksum is
recovered from the last (69th) character; symmetrically for line 2 with
9 fields and a space at the 64th character (index 63). -/
theorem parse_overconsumption_fix (line_1 line_2 : List Char) :
    ((scanLine1 line_1).scanned = 15 → 69 ≤ (scanLine1 line_1).pre_checksum →
      charAt line_1 64 = ' ' →
        (l1res line_1).element_set_number = (scanLine1 line_1).element_set_number / 10
      ∧ (l1res line_1).line_1_checksum = ucharDigitVal (charAt line_1 68)
      ∧ (l1res line_1).scanned = 16)
  ∧ ((scanLine2 line_2).scanned = 9 → 69 ≤ (scanLine2 line_2).pre_checksum →
      charAt line_2 63 = ' ' →
        (l2res line_2).revolution_number = (scanLine2 line_2).revolution_number / 10
      ∧ (l2res line_2).line_2_checksum = ucharDigitVal (charAt line_2 68)
      ∧ (l2res line_2).scanned = 10) := by
  constructor
  · intro h1 h2 h3
    have hfix : fix_l1_checksum line_1 (scanLine1 line_1) =
        { scanLine1 line_1 with
            element_set_number := (scanLine1 line_1).element_set_number / 10,
            line_1_checksum := ucharDigitVal (charAt line_1 68),
            scanned := (scanLine1 line_1).scanned + 1 } := by
      unfold fix_l1_checksum
      rw [if_pos ⟨h1, h2, h3⟩]
    unfold l1res
    rw [hfix]
    unfold adjust_exps
    split_ifs <;> simp [h1]
  · intro h1 h2 h3
    unfold l2res fix_l2_checksum
    rw [if_pos ⟨h1, h2, h3⟩]
    simp [h1]

/-- Witness for C1, exercising each arm at a concrete input: a line-1 with
both a missing mandatory space and a bad checksum parses to
SHOULD_BE_SPACE; the test suite's invalid-format input passed the space
checks but not the conversion-count check; the bad-classification input
passed the space and count checks but not the value check; and on the test
suite's checksum-mismatch input the space, format and value checks all
passed. -/
theorem parse_error_ordering_witness :
    parse BADSPACE_BADCKS_TLE_1 ISS_TLE_2 = TLEParseError.SHOULD_BE_SPACE
  ∧ (line1SpacesOk BADFMT_TLE_1 = true ∧ line2SpacesOk ISS_TLE_2 = true
     ∧ ¬ ((l1res BADFMT_TLE_1).scanned = 16 ∧ (l2res ISS_TLE_2).scanned = 10))
  ∧ (line1SpacesOk BADCLS_TLE_1 = true ∧ line2SpacesOk ISS_TLE_2 = true
     ∧ (l1res BADCLS_TLE_1).scanned = 16 ∧ (l2res ISS_TLE_2).scanned = 10
     ∧ valid_vals (l1res BADCLS_TLE_1) (l2res ISS_TLE_2) = false)
  ∧ (line1SpacesOk ISS_TLE_1 = true ∧ line2SpacesOk BADCKS_TLE_2 = true
     ∧ (l1res ISS_TLE_1).scanned = 16 ∧ (l2res BADCKS_TLE_2).scanned = 10
     ∧ valid_vals (l1res ISS_TLE_1) (l2res BADCKS_TLE_2) = true) :=
  ⟨(parse_error_ordering BADSPACE_BADCKS_TLE_1 ISS_TLE_2).1 (Or.inl (by decide)),
   (parse_error_ordering BADFMT_TLE_1 ISS_TLE_2).2.1 (by decide),
   (parse_error_ordering BADCLS_TLE_1 ISS_TLE_2).2.2.1 (by decide),
   (parse_error_ordering ISS_TLE_1 BADCKS_TLE_2).2.2.2 (by decide)⟩

/-- Witness for C4 at the ISS element set: its checks all pass, so the
NONE result is equivalent to both computed checksums matching the
transmitted digits. -/
theorem parse_checksum_iff_witness :
    parse ISS_TLE_1 ISS_TLE_2 = TLEParseError.NONE ↔
      (calc_tle_line_checksum ISS_TLE_1 = (l1res ISS_TLE_1).line_1_checksum
       ∧ calc_tle_line_checksum ISS_TLE_2 = (l2res ISS_TLE_2).line_2_checksum) :=
  (parse_checksum_iff ISS_TLE_1 ISS_TLE_2 (by decide) (by decide) (by decide)
    (by decide) (by decide)).2.2

/-- Witness for C5 at the ISS element set: every hypothesis holds there,
and `parse` returns INVALID_VALUE exactly when some decoded value is out
of range (here none is). -/
theorem parse_invalid_value_iff_witness :
    parse ISS_TLE_1 ISS_TLE_2 = TLEParseError.INVALID_VALUE ↔
      ¬ ( (l1res ISS_TLE_1).line1_num = 1
        ∧ ((l1res ISS_TLE_1).classification = 'U' ∨ (l1res ISS_TLE_1).classification = 'C'
            ∨ (l1res ISS_TLE_1).classification = 'S')
        ∧ (l1res ISS_TLE_1).launch_year < 100 ∧ (l1res ISS_TLE_1).epoch_year < 100
        ∧ 1 ≤ (l1res ISS_TLE_1).epoch_day_of_year.toRat
        ∧ (l1res ISS_TLE_1).epoch_day_of_year.toRat ≤ 366
        ∧ -15 < (l1res ISS_TLE_1).n_ddot_exp ∧ (l1res ISS_TLE_1).n_ddot_exp < 10
        ∧ -15 < (l1res ISS_TLE_1).b_star_exp ∧ (l1res ISS_TLE_1).b_star_exp < 10
        ∧ (l1res ISS_TLE_1).ephemeris_type = 0
        ∧ (l1res ISS_TLE_1).element_set_number < 10000
        ∧ (l2res ISS_TLE_2).line2_num = 2
        ∧ (l1res ISS_TLE_1).catalog_number = (l2res ISS_TLE_2).catlog_num_line2
        ∧ 0 ≤ (l2res ISS_TLE_2).inclination.toRat
        ∧ (l2res ISS_TLE_2).inclination.toRat ≤ 180
        ∧ 0 ≤ (l2res ISS_TLE_2).raan.toRat ∧ (l2res ISS_TLE_2).raan.toRat ≤ 360
        ∧ 0 ≤ (l2res ISS_TLE_2).arg_of_perigee.toRat
        ∧ (l2res ISS_TLE_2).arg_of_perigee.toRat ≤ 360
        ∧ 0 ≤ (l2res ISS_TLE_2).mean_anomaly.toRat
        ∧ (l2res ISS_TLE_2).mean_anomaly.toRat ≤ 360 ) :=
  parse_invalid_value_iff ISS_TLE_1 ISS_TLE_2 (by decide) (by decide) (by decide) (by decide)

/-- Witness for C6: the fix fires on the standard ISS line 1 (element-set
field ` 999` without leading zeroes) and on the alternate line 2 with
revolution-number field ` 3022`. -/
theorem parse_overconsumption_fix_witness :
    ((l1res ISS_TLE_1).element_set_number = (scanLine1 ISS_TLE_1).element_set_number / 10
    ∧ (l1res ISS_TLE_1).line_1_checksum = ucharDigitVal (charAt ISS_TLE_1 68)
    ∧ (l1res ISS_TLE_1).scanned = 16)
  ∧ ((l2res ALT_TLE_2).revolution_number = (scanLine2 ALT_TLE_2).revolution_number / 10
    ∧ (l2res ALT_TLE_2).line_2_checksum = ucharDigitVal (charAt ALT_TLE_2 68)
    ∧ (l2res ALT_TLE_2).scanned = 10) :=
  ⟨(parse_overconsumption_fix ISS_TLE_1 ALT_TLE_2).1 (by decide) (by decide) (by decide),
   (parse_overconsumption_fix ISS_TLE_1 ALT_TLE_2).2 (by decide) (by decide) (by decide)⟩

end Perturb
